import Mathlib

/-!
Verification of `GoogleHelper.py` from the GoogleMonicaSync repository.

The Python module is shallowly embedded: dictionaries become structures with
`Option` fields (a `none` models a missing key), a raised exception becomes the
`.error` branch of `Except String`, and the remote HTTP service is passed in as
data (the sequence of result pages, or a function from request parameters to an
outcome).  Every definition mirrors a function of `src/GoogleHelper.py`; line
numbers in the doc comments refer to that file.
-/

namespace GMSync

/-- Model of a Google person resource (a Python dict).
`resourceName` is `none` when the dict has no `resourceName` key.
`names` models the `names` list: each entry holds the dict's `displayName`
value (or `none` when that key is missing); `names = none` means the key is
absent.  `memberships` models the `memberships` list: each entry holds the
value of `contactGroupMembership.contactGroupId` (or `none` when that nested
path is missing); `memberships = none` means the contact has no `memberships`
key at all. -/
structure GContact where
  resourceName : Option String
  names : Option (List (Option String))
  memberships : Option (List (Option String))
  deriving DecidableEq

/-- Label filter configuration (`self.labelFilter`): the `include` and
`exclude` lists of group ids. -/
structure LabelFilter where
  includeIds : List String
  excludeIds : List String
  deriving DecidableEq

/-- Evaluates `contactLabel["contactGroupMembership"]["contactGroupId"]` over a
memberships list, left to right; a `none` entry raises a `KeyError`. -/
def groupIdsList : List (Option String) → Except String (List String)
  | [] => .ok []
  | none :: _ => .error "KeyError: contactGroupId"
  | some gid :: rest => (groupIdsList rest).map (fun ids => gid :: ids)

/-- Evaluates `contact["memberships"]` followed by the nested id lookups;
raises a `KeyError` when the `memberships` key is absent. -/
def groupIds (c : GContact) : Except String (List String) :=
  match c.memberships with
  | none => .error "KeyError: memberships"
  | some ms => groupIdsList ms

/-- True when the contact has a `memberships` entry each of whose elements
carries `contactGroupMembership.contactGroupId`. -/
def wellformedContact (c : GContact) : Bool :=
  match c.memberships with
  | none => false
  | some ms => ms.all (fun m => m.isSome)

/-- Group ids of a well-formed contact (the entries that are present). -/
def memberIds (c : GContact) : List String :=
  (c.memberships.getD []).filterMap id

/-- Pure keep-predicate of the include branch of the filter: at least one
group id in the include list and none in the exclude list. -/
def keptByInclude (f : LabelFilter) (c : GContact) : Bool :=
  (memberIds c).any (fun gid => f.includeIds.contains gid) &&
  (memberIds c).all (fun gid => !(f.excludeIds.contains gid))

/-- Pure keep-predicate of the exclude branch of the filter: no group id in
the exclude list. -/
def keptByExclude (f : LabelFilter) (c : GContact) : Bool :=
  (memberIds c).all (fun gid => !(f.excludeIds.contains gid))

/-- Effectful predicate of the include branch (lines 76-82): evaluates the
membership ids (which may raise) and then the any/all test. -/
def includePred (f : LabelFilter) (c : GContact) : Except String Bool := do
  let ids ← groupIds c
  pure (ids.any (fun gid => f.includeIds.contains gid) &&
        ids.all (fun gid => !(f.excludeIds.contains gid)))

/-- Effectful predicate of the exclude branch (lines 84-87). -/
def excludePred (f : LabelFilter) (c : GContact) : Except String Bool := do
  let ids ← groupIds c
  pure (ids.all (fun gid => !(f.excludeIds.contains gid)))

/-- List-comprehension filter over an effectful predicate: the predicate is
evaluated on every element, in order, and the first raised error aborts the
whole comprehension. -/
def filterExcept (p : GContact → Except String Bool) :
    List GContact → Except String (List GContact)
  | [] => .ok []
  | c :: rest => do
    let keep ← p c
    let tail ← filterExcept p rest
    pure (if keep then c :: tail else tail)

/-- Embeds `Google.__filterContactsByLabel` (lines 73-89): the include branch when
the include list is non-empty, the exclude branch when only the exclude list
is non-empty, otherwise the input list unchanged. -/
def filterContactsByLabel (f : LabelFilter) (contactList : List GContact) :
    Except String (List GContact) :=
  if f.includeIds.isEmpty then
    if f.excludeIds.isEmpty then .ok contactList
    else filterExcept (excludePred f) contactList
  else filterExcept (includePred f) contactList

lemma groupIdsList_wf (ms : List (Option String)) (h : ms.all (fun m => m.isSome) = true) :
    groupIdsList ms = .ok (ms.filterMap id) := by
  induction ms with
  | nil => rfl
  | cons m rest ih =>
    simp only [List.all_cons, Bool.and_eq_true] at h
    cases m with
    | none => simp at h
    | some gid =>
      simp only [groupIdsList, ih h.2, Except.map, List.filterMap_cons, id]

lemma groupIds_wf (c : GContact) (h : wellformedContact c = true) :
    groupIds c = .ok (memberIds c) := by
  unfold wellformedContact at h
  unfold groupIds memberIds
  cases hm : c.memberships with
  | none => rw [hm] at h; simp at h
  | some ms =>
    rw [hm] at h
    simp only [Option.getD_some, groupIdsList_wf ms h]

lemma includePred_wf (f : LabelFilter) (c : GContact) (h : wellformedContact c = true) :
    includePred f c = .ok (keptByInclude f c) := by
  unfold includePred keptByInclude
  rw [groupIds_wf c h]
  rfl

lemma excludePred_wf (f : LabelFilter) (c : GContact) (h : wellformedContact c = true) :
    excludePred f c = .ok (keptByExclude f c) := by
  unfold excludePred keptByExclude
  rw [groupIds_wf c h]
  rfl

lemma filterExcept_pure (p : GContact → Except String Bool) (q : GContact → Bool)
    (cl : List GContact) (h : ∀ c ∈ cl, p c = .ok (q c)) :
    filterExcept p cl = .ok (cl.filter q) := by
  induction cl with
  | nil => rfl
  | cons c rest ih =>
    have hc : p c = .ok (q c) := h c (List.mem_cons_self c rest)
    have hrest : filterExcept p rest = .ok (rest.filter q) :=
      ih (fun x hx => h x (List.mem_cons_of_mem c hx))
    simp only [filterExcept, hc, hrest, List.filter_cons]
    cases q c <;> rfl

lemma filterExcept_error (p : GContact → Except String Bool) (cl : List GContact)
    (c : GContact) (hc : c ∈ cl) (e : String) (he : p c = .error e) :
    ∃ e2, filterExcept p cl = .error e2 := by
  induction cl with
  | nil => simp at hc
  | cons d rest ih =>
    rcases List.mem_cons.mp hc with h1 | h2
    · subst h1
      exact ⟨e, by simp only [filterExcept, he]; rfl⟩
    · cases hd : p d with
      | error e3 => exact ⟨e3, by simp only [filterExcept, hd]; rfl⟩
      | ok b =>
        obtain ⟨e2, h2e⟩ := ih h2
        exact ⟨e2, by simp only [filterExcept, hd, h2e]; rfl⟩

/-- C1: the label filter satisfies the three-case invariant on every list
of contacts whose memberships are present: with a non-empty include list a
contact is kept iff it has at least one group id in the include list and none
in the exclude list; with an empty include list and non-empty exclude list a
contact is kept iff it has no group id in the exclude list; with both lists
empty the input is returned unchanged.  In the first two cases the result is
`List.filter` of the corresponding pure predicate, so kept contacts appear in
input order. -/
theorem filterContactsByLabel_threeCase (f : LabelFilter) (cl : List GContact)
    (hwf : ∀ c ∈ cl, wellformedContact c = true) :
    (f.includeIds ≠ [] →
       filterContactsByLabel f cl = .ok (cl.filter (keptByInclude f))) ∧
    (f.includeIds = [] → f.excludeIds ≠ [] →
       filterContactsByLabel f cl = .ok (cl.filter (keptByExclude f))) ∧
    (f.includeIds = [] → f.excludeIds = [] →
       filterContactsByLabel f cl = .ok cl) := by
  refine ⟨fun hinc => ?_, fun hinc hexc => ?_, fun hinc hexc => ?_⟩
  · unfold filterContactsByLabel
    rw [if_neg (by simpa [List.isEmpty_iff] using hinc)]
    exact filterExcept_pure _ _ cl (fun c hc => includePred_wf f c (hwf c hc))
  · unfold filterContactsByLabel
    rw [if_pos (by simpa [List.isEmpty_iff] using hinc),
        if_neg (by simpa [List.isEmpty_iff] using hexc)]
    exact filterExcept_pure _ _ cl (fun c hc => excludePred_wf f c (hwf c hc))
  · unfold filterContactsByLabel
    rw [if_pos (by simpa [List.isEmpty_iff] using hinc),
        if_pos (by simpa [List.isEmpty_iff] using hexc)]

/-- Concrete contact with one membership in group "g1". -/
def cG1 : GContact :=
  { resourceName := some "people/c1", names := some [some "Alice"],
    memberships := some [some "g1"] }

/-- Concrete contact with one membership in group "g2". -/
def cG2 : GContact :=
  { resourceName := some "people/c2", names := some [some "Bob"],
    memberships := some [some "g2"] }

/-- Concrete contact lacking the `memberships` key. -/
def cNoMem : GContact :=
  { resourceName := some "people/c3", names := some [some "Carol"],
    memberships := none }

/-- Witness for C1: the three-case invariant evaluated on concrete lists. -/
theorem filterContactsByLabel_threeCase_witness :
    filterContactsByLabel ⟨["g1"], ["g2"]⟩ [cG1, cG2] =
      .ok ([cG1, cG2].filter (keptByInclude ⟨["g1"], ["g2"]⟩)) ∧
    filterContactsByLabel ⟨[], ["g2"]⟩ [cG1, cG2] =
      .ok ([cG1, cG2].filter (keptByExclude ⟨[], ["g2"]⟩)) ∧
    filterContactsByLabel ⟨[], []⟩ [cG1, cG2] = .ok [cG1, cG2] :=
  ⟨(filterContactsByLabel_threeCase ⟨["g1"], ["g2"]⟩ [cG1, cG2] (by decide)).1 (by decide),
   (filterContactsByLabel_threeCase ⟨[], ["g2"]⟩ [cG1, cG2] (by decide)).2.1 rfl (by decide),
   (filterContactsByLabel_threeCase ⟨[], []⟩ [cG1, cG2] (by decide)).2.2 rfl rfl⟩

/-- C10: with a non-empty include or exclude list the filter is only total
over lists of well-formed contacts: a list containing a contact without a
`memberships` entry makes the filter raise a `KeyError` (it neither keeps nor
drops that contact), and a fully well-formed list always succeeds; with both
lists empty the filter succeeds on arbitrary lists, returning them
unchanged. -/
theorem filterContactsByLabel_totality (f : LabelFilter) (cl : List GContact) :
    ((f.includeIds ≠ [] ∨ f.excludeIds ≠ []) →
       ((∃ c ∈ cl, c.memberships = none) →
          ∃ e, filterContactsByLabel f cl = .error e) ∧
       ((∀ c ∈ cl, wellformedContact c = true) →
          ∃ res, filterContactsByLabel f cl = .ok res)) ∧
    (f.includeIds = [] → f.excludeIds = [] →
       filterContactsByLabel f cl = .ok cl) := by
  constructor
  · intro hne
    constructor
    · rintro ⟨c, hc, hmem⟩
      have hip : includePred f c = .error "KeyError: memberships" := by
        unfold includePred groupIds
        rw [hmem]
        rfl
      have hep : excludePred f c = .error "KeyError: memberships" := by
        unfold excludePred groupIds
        rw [hmem]
        rfl
      unfold filterContactsByLabel
      rcases hi : f.includeIds.isEmpty with hv | hv
      · simp only [Bool.false_eq_true, if_false]
        exact filterExcept_error _ cl c hc _ hip
      · simp only [if_true]
        rcases he : f.excludeIds.isEmpty with hw | hw
        · simp only [Bool.false_eq_true, if_false]
          exact filterExcept_error _ cl c hc _ hep
        · exfalso
          rcases hne with h | h
          · exact h (List.isEmpty_iff.mp hi)
          · exact h (List.isEmpty_iff.mp he)
    · intro hwf
      obtain ⟨h1, h2, h3⟩ := filterContactsByLabel_threeCase f cl hwf
      rcases hi : f.includeIds with _ | ⟨x, xs⟩
      · rcases he : f.excludeIds with _ | ⟨y, ys⟩
        · exact ⟨cl, h3 hi he⟩
        · exact ⟨cl.filter (keptByExclude f), h2 hi (by rw [he]; simp)⟩
      · exact ⟨cl.filter (keptByInclude f), h1 (by rw [hi]; simp)⟩
  · intro hinc hexc
    unfold filterContactsByLabel
    rw [if_pos (by simpa [List.isEmpty_iff] using hinc),
        if_pos (by simpa [List.isEmpty_iff] using hexc)]

/-- Witness for C10: a list containing a contact with no memberships key makes
the active filter raise, while the empty filter returns it unchanged. -/
theorem filterContactsByLabel_totality_witness :
    (∃ e, filterContactsByLabel ⟨["g1"], []⟩ [cG1, cNoMem] = .error e) ∧
    filterContactsByLabel ⟨[], []⟩ [cG1, cNoMem] = .ok [cG1, cNoMem] :=
  ⟨((filterContactsByLabel_totality ⟨["g1"], []⟩ [cG1, cNoMem]).1
      (Or.inl (by decide))).1 ⟨cNoMem, by decide, rfl⟩,
   (filterContactsByLabel_totality ⟨[], []⟩ [cG1, cNoMem]).2 rfl rfl⟩

/-- One result page of `people().connections().list()`: the `connections`
list and the optional `nextPageToken` / `nextSyncToken` entries. -/
structure Page where
  connections : List GContact
  nextPageToken : Option String
  nextSyncToken : Option String
  deriving DecidableEq

/-- Mutable adapter state touched by the page walk: every value assigned to
`self.contacts` (in order) and the `self.apiRequests` counter. -/
structure FetchState where
  cacheWrites : List (List GContact)
  apiRequests : Nat
  deriving DecidableEq

/-- Result of a completed page walk: the local `contacts` accumulator at loop
exit, the final adapter state, and the last page's `nextSyncToken`. -/
structure FetchResult where
  raw : List GContact
  state : FetchState
  nextSyncToken : Option String
  deriving DecidableEq

/-- Loop body of `Google.__fetchContacts` (lines 171-187): the remote service
is modelled by the sequence of pages it returns to successive `list()` calls.
Each iteration appends the page's connections to the accumulator; when a page
has a `nextPageToken` the loop continues on the next page, otherwise the cache
is replaced by the label-filtered accumulation and the loop exits.  Running
out of pages while a token demands more is outside the modelled executions
and reported as an error. -/
def fetchContactsLoop (f : LabelFilter) :
    List Page → List GContact → FetchState → Except String FetchResult
  | [], _, _ => .error "no further page"
  | p :: rest, acc, st =>
    let st1 : FetchState := { st with apiRequests := st.apiRequests + 1 }
    let acc2 := acc ++ p.connections
    match p.nextPageToken with
    | some _ => fetchContactsLoop f rest acc2 st1
    | none =>
      match filterContactsByLabel f acc2 with
      | .error e => .error e
      | .ok filtered =>
        .ok { raw := acc2,
              state := { st1 with cacheWrites := st1.cacheWrites ++ [filtered] },
              nextSyncToken := p.nextSyncToken }

/-- Embeds `Google.__fetchContacts`, started on an empty accumulator and fresh
state. -/
def fetchContacts (f : LabelFilter) (pages : List Page) : Except String FetchResult :=
  fetchContactsLoop f pages [] { cacheWrites := [], apiRequests := 0 }

lemma fetchContactsLoop_spec (f : LabelFilter) (front : List Page) (last : Page)
    (hfront : ∀ p ∈ front, p.nextPageToken.isSome = true)
    (hlast : last.nextPageToken = none) :
    ∀ (acc : List GContact) (st : FetchState),
      fetchContactsLoop f (front ++ [last]) acc st =
        (filterContactsByLabel f
            (acc ++ ((front ++ [last]).map Page.connections).flatten)).map
          (fun filtered =>
            { raw := acc ++ ((front ++ [last]).map Page.connections).flatten,
              state := { cacheWrites := st.cacheWrites ++ [filtered],
                         apiRequests := st.apiRequests + (front ++ [last]).length },
              nextSyncToken := last.nextSyncToken }) := by
  induction front with
  | nil =>
    intro acc st
    simp only [List.nil_append, List.map_cons, List.map_nil, List.flatten,
      List.append_nil, List.length_cons, List.length_nil]
    unfold fetchContactsLoop
    rw [hlast]
    cases hfc : filterContactsByLabel f (acc ++ last.connections) <;>
      simp [Except.map, hfc]
  | cons p front ih =>
    intro acc st
    have hp : p.nextPageToken.isSome = true := hfront p (List.mem_cons_self p front)
    obtain ⟨tok, htok⟩ := Option.isSome_iff_exists.mp hp
    have ihr := ih (fun q hq => hfront q (List.mem_cons_of_mem p hq))
    simp only [List.cons_append]
    unfold fetchContactsLoop
    rw [htok]
    simp only [ihr, List.map_cons, List.flatten_cons, List.append_assoc,
      List.length_cons, List.length_append]
    cases hfc : filterContactsByLabel f
        (acc ++ (p.connections ++ (List.map Page.connections (front ++ [last])).flatten)) <;>
      simp [Except.map, hfc]
    omega

/-- C2: for every page sequence in which each page but the last carries a
`nextPageToken` and the last does not, the fetch-all walk terminates after
visiting every page exactly once (the request counter ends at the number of
pages), the accumulated result is the concatenation of all pages' connection
lists in page order, and the cache is written exactly once, with the
label-filtered accumulation; the last page's `nextSyncToken` is the one
reported. -/
theorem fetchContacts_pagination (f : LabelFilter) (front : List Page) (last : Page)
    (hfront : ∀ p ∈ front, p.nextPageToken.isSome = true)
    (hlast : last.nextPageToken = none) :
    fetchContacts f (front ++ [last]) =
      (filterContactsByLabel f (((front ++ [last]).map Page.connections).flatten)).map
        (fun filtered =>
          { raw := ((front ++ [last]).map Page.connections).flatten,
            state := { cacheWrites := [filtered],
                       apiRequests := (front ++ [last]).length },
            nextSyncToken := last.nextSyncToken }) := by
  unfold fetchContacts
  rw [fetchContactsLoop_spec f front last hfront hlast [] { cacheWrites := [], apiRequests := 0 }]
  simp

/-- Witness for C2: a two-page walk over concrete pages. -/
theorem fetchContacts_pagination_witness :
    fetchContacts ⟨[], []⟩
        [{ connections := [cG1], nextPageToken := some "t1", nextSyncToken := none },
         { connections := [cG2], nextPageToken := none, nextSyncToken := some "s" }] =
      .ok { raw := [cG1, cG2],
            state := { cacheWrites := [[cG1, cG2]], apiRequests := 2 },
            nextSyncToken := some "s" } := by
  have h := fetchContacts_pagination ⟨[], []⟩
    [{ connections := [cG1], nextPageToken := some "t1", nextSyncToken := none }]
    { connections := [cG2], nextPageToken := none, nextSyncToken := some "s" }
    (by decide) rfl
  simpa [filterContactsByLabel, Except.map] using h

/-- True when the first list is an initial segment of the second. -/
def startsWith : List Char → List Char → Bool
  | [], _ => true
  | _ :: _, [] => false
  | a :: as, b :: bs => a == b && startsWith as bs

/-- Python's `needle in hay` test on strings, over the character lists. -/
def containsSub (needle : List Char) : List Char → Bool
  | [] => needle.isEmpty
  | c :: rest => startsWith needle (c :: rest) || containsSub needle rest

/-- The `'Sync token' in error._get_reason()` test of line 157. -/
def isSyncTokenReason (reason : String) : Bool :=
  containsSub "Sync token".toList reason.toList

/-- GET parameter dict handed to the page walk: the `syncToken` entry (absent
when the caller supplied none) and the remaining entries, which the retry
logic never touches. -/
structure Params where
  syncToken : Option String
  base : List (String × String)
  deriving DecidableEq

/-- Outcome of one `__fetchContacts` page walk: the new contents of the
contact cache on success, a raised `HttpError` with its reason string, or any
other raised exception (e.g. a `KeyError` from the label filter), which the
caller's `except HttpError` clause does not catch. -/
inductive WalkOutcome where
  | ok (newContacts : List GContact)
  | httpError (reason : String)
  | otherError (msg : String)
  deriving DecidableEq

/-- Exception escaping `getContacts`: `raise Exception(msg)`, an uncaught
`KeyError`, or an uncaught `HttpError`. -/
inductive GError where
  | exn (msg : String)
  | keyError (k : String)
  | httpError (reason : String)
  deriving DecidableEq

/-- Embeds `Google.getContacts` (lines 136-169) with the page walk abstracted as a
function from parameters to an outcome.  Returns the list of parameter dicts
passed to the walk, in call order, together with the result handed to the
caller.  When the first walk raises an `HttpError` whose reason contains
"Sync token", the `syncToken` entry is popped (a pop on an absent key raises
`KeyError`) and the walk runs once more; an `HttpError` of any other reason
is re-raised as `Exception(reason)`, and a failure of the second walk
propagates as is. -/
def getContacts (walk : Params → WalkOutcome) (dataAlreadyFetched refetchData : Bool)
    (cachedContacts : List GContact) (p : Params) :
    List Params × Except GError (List GContact) :=
  if dataAlreadyFetched && !refetchData then ([], .ok cachedContacts)
  else
    match walk p with
    | .ok cs => ([p], .ok cs)
    | .otherError m => ([p], .error (.keyError m))
    | .httpError reason =>
      if isSyncTokenReason reason then
        match p.syncToken with
        | none => ([p], .error (.keyError "syncToken"))
        | some _ =>
          let p2 : Params := { p with syncToken := none }
          match walk p2 with
          | .ok cs => ([p, p2], .ok cs)
          | .httpError r2 => ([p, p2], .error (.httpError r2))
          | .otherError m => ([p, p2], .error (.keyError m))
      else ([p], .error (.exn reason))

/-- C3: when the page walk is actually run (no fresh-enough cache) and
fails with an `HttpError`: if the reason names the sync token, the walk is
restarted exactly once with the `syncToken` parameter removed — the call
sequence is precisely the original parameters followed by the same
parameters without the token — and a successful restart is returned to the
caller without raising while a failing restart propagates its error without
another retry; if the reason does not name the sync token, the error
propagates after the single walk. -/
theorem getContacts_syncTokenRetry (walk : Params → WalkOutcome)
    (refetchData : Bool) (cachedContacts : List GContact) (p : Params)
    (t : String) (hp : p.syncToken = some t)
    (reason : String) (hw : walk p = .httpError reason) :
    (isSyncTokenReason reason = true →
       (getContacts walk false refetchData cachedContacts p).1 =
         [p, { p with syncToken := none }] ∧
       (∀ cs, walk { p with syncToken := none } = .ok cs →
          (getContacts walk false refetchData cachedContacts p).2 = .ok cs) ∧
       (∀ r2, walk { p with syncToken := none } = .httpError r2 →
          (getContacts walk false refetchData cachedContacts p).2 =
            .error (.httpError r2))) ∧
    (isSyncTokenReason reason = false →
       (getContacts walk false refetchData cachedContacts p).1 = [p] ∧
       (getContacts walk false refetchData cachedContacts p).2 =
         .error (.exn reason)) := by
  constructor
  · intro hst
    unfold getContacts
    simp only [Bool.false_and, Bool.false_eq_true, if_false, hw, hst, if_true, hp]
    refine ⟨?_, fun cs hcs => ?_, fun r2 hr2 => ?_⟩
    · cases walk { p with syncToken := none } <;> rfl
    · rw [hcs]
    · rw [hr2]
  · intro hst
    unfold getContacts
    simp only [Bool.false_and, Bool.false_eq_true, if_false, hw, hst, if_false]
    exact ⟨trivial, trivial⟩

/-- Concrete walk behavior for the C3 witness: the first call (with a sync
token) fails with a sync-token reason, the retried call succeeds. -/
def walkW (p : Params) : WalkOutcome :=
  match p.syncToken with
  | some _ => .httpError "Sync token is expired."
  | none => .ok [cG1]

/-- Witness for C3: the concrete retry run calls the walk twice, the second
time without the token, and returns the restarted walk's contacts. -/
theorem getContacts_syncTokenRetry_witness :
    (getContacts walkW false false [] { syncToken := some "tok", base := [] }).1 =
      [{ syncToken := some "tok", base := [] }, { syncToken := none, base := [] }] ∧
    (getContacts walkW false false [] { syncToken := some "tok", base := [] }).2 =
      .ok [cG1] := by
  have h := (getContacts_syncTokenRetry walkW false [] { syncToken := some "tok", base := [] }
    "tok" rfl "Sync token is expired." rfl).1 (by decide)
  exact ⟨h.1, h.2.1 [cG1] rfl⟩

/-- Log handle: messages recorded at each level, in order. -/
structure Log where
  warnings : List String
  infos : List String
  errors : List String
  deriving DecidableEq

/-- Appends a warning-level message. -/
def Log.addWarning (l : Log) (m : String) : Log :=
  { l with warnings := l.warnings ++ [m] }

/-- Appends an info-level message. -/
def Log.addInfo (l : Log) (m : String) : Log :=
  { l with infos := l.infos ++ [m] }

/-- Appends an error-level message. -/
def Log.addError (l : Log) (m : String) : Log :=
  { l with errors := l.errors ++ [m] }

/-- Adapter state touched by the create/update operations. -/
structure GState where
  contacts : List GContact
  createdContacts : List String
  apiRequests : Nat
  deriving DecidableEq

/-- Payload dict handed to create/update: the `resourceName` entry (absent on
create payloads) and the `names` entry, a list whose elements stand for the
textual form of the name dicts (as interpolated into the warning message). -/
structure Payload where
  resourceName : Option String
  names : Option (List String)
  deriving DecidableEq

/-- Evaluates `data['names'][0]`: a missing key raises `KeyError`, an empty
list raises `IndexError`. -/
def payloadFirstName (data : Payload) : Except String String :=
  match data.names with
  | none => .error "KeyError: names"
  | some [] => .error "IndexError: names"
  | some (n :: _) => .ok n

/-- Evaluates `result.get('names', [{}])[0].get('displayName', 'error')` on a
returned contact: a missing `names` key defaults to `[{}]` (giving "error"),
an empty list raises `IndexError`, and a name dict without `displayName`
gives "error". -/
def resultDisplayName (c : GContact) : Except String String :=
  match c.names with
  | none => .ok "error"
  | some [] => .error "IndexError: result names"
  | some (n :: _) => .ok (n.getD "error")

/-- Embeds `Google.createContact` (lines 247-268).  The remote call's outcome is the
`remote` argument: `.error reason` models a raised `HttpError`.  On such a
failure a warning naming `data['names'][0]` is logged and `None` is returned;
on success the request counter is bumped, the new id is recorded in
`createdContacts`, the result is appended to the cache and returned. -/
def createContact (st : GState) (log : Log) (data : Payload)
    (remote : Except String GContact) :
    Except String (Option GContact) × GState × Log :=
  match remote with
  | .error reason =>
    match payloadFirstName data with
    | .error e => (.error e, st, log)
    | .ok nm =>
      (.ok none, st,
       log.addWarning ("'" ++ nm ++ "':Failed to create Google contact. Reason: " ++ reason))
  | .ok result =>
    let st1 : GState := { st with apiRequests := st.apiRequests + 1 }
    let id := result.resourceName.getD "-"
    match resultDisplayName result with
    | .error e => (.error e, st1, log)
    | .ok name =>
      (.ok (some result),
       { st1 with createdContacts := st1.createdContacts ++ [id],
                  contacts := st1.contacts ++ [result] },
       log.addInfo ("'" ++ name ++ "': Contact with id '" ++ id ++ "' created successfully"))

/-- Embeds `Google.updateContact` (lines 270-290).  `data['resourceName']` is read
while building the request, so a payload without it raises `KeyError` before
any remote call; an `HttpError` from the call is logged as a warning naming
`data['names'][0]` and `None` is returned; on success the request counter is
bumped and the result is returned — the cache is left untouched (the source
logs "Contact has not been saved internally!"). -/
def updateContact (st : GState) (log : Log) (data : Payload)
    (remote : Except String GContact) :
    Except String (Option GContact) × GState × Log :=
  match data.resourceName with
  | none => (.error "KeyError: resourceName", st, log)
  | some _ =>
    match remote with
    | .error reason =>
      match payloadFirstName data with
      | .error e => (.error e, st, log)
      | .ok nm =>
        (.ok none, st,
         log.addWarning ("'" ++ nm ++ "':Failed to update Google contact. Reason: " ++ reason))
    | .ok result =>
      let st1 : GState := { st with apiRequests := st.apiRequests + 1 }
      let id := result.resourceName.getD "-"
      match resultDisplayName result with
      | .error e => (.error e, st1, log)
      | .ok name =>
        (.ok (some result), st1,
         (log.addInfo "Contact has not been saved internally!").addInfo
           ("'" ++ name ++ "': Contact with id '" ++ id ++ "' updated successfully"))

/-- C4: for every payload that carries a name entry (and, for update, a
resource name), a remote HTTP failure of createContact or updateContact does
not raise: each returns the absent result `None`, leaves the adapter state
unchanged, and logs exactly one warning which contains the payload's first
name entry as a substring (it is of the form prefix ++ name ++ suffix). -/
theorem createUpdate_softFailure (st : GState) (log : Log) (data : Payload)
    (reason : String) (nm : String) (hn : payloadFirstName data = .ok nm)
    (rid : String) (hr : data.resourceName = some rid) :
    (∃ w, createContact st log data (.error reason) =
        (.ok none, st, log.addWarning w) ∧
        ∃ pre suf, w = pre ++ nm ++ suf) ∧
    (∃ w, updateContact st log data (.error reason) =
        (.ok none, st, log.addWarning w) ∧
        ∃ pre suf, w = pre ++ nm ++ suf) := by
  constructor
  · refine ⟨"'" ++ nm ++ "':Failed to create Google contact. Reason: " ++ reason, ?_, ?_⟩
    · unfold createContact
      rw [hn]
    · exact ⟨"'", "':Failed to create Google contact. Reason: " ++ reason, by
        simp [String.append_assoc]⟩
  · refine ⟨"'" ++ nm ++ "':Failed to update Google contact. Reason: " ++ reason, ?_, ?_⟩
    · unfold updateContact
      rw [hr, hn]
    · exact ⟨"'", "':Failed to update Google contact. Reason: " ++ reason, by
        simp [String.append_assoc]⟩

/-- Witness for C4: a concrete payload and failure reason. -/
theorem createUpdate_softFailure_witness :
    (∃ w, createContact ⟨[], [], 0⟩ ⟨[], [], []⟩
        { resourceName := some "people/c9", names := some ["Ann"] } (.error "quota") =
        (.ok none, ⟨[], [], 0⟩, Log.addWarning ⟨[], [], []⟩ w) ∧
        ∃ pre suf, w = pre ++ "Ann" ++ suf) ∧
    (∃ w, updateContact ⟨[], [], 0⟩ ⟨[], [], []⟩
        { resourceName := some "people/c9", names := some ["Ann"] } (.error "quota") =
        (.ok none, ⟨[], [], 0⟩, Log.addWarning ⟨[], [], []⟩ w) ∧
        ∃ pre suf, w = pre ++ "Ann" ++ suf) :=
  createUpdate_softFailure ⟨[], [], 0⟩ ⟨[], [], []⟩
    { resourceName := some "people/c9", names := some ["Ann"] }
    "quota" "Ann" rfl "people/c9" rfl

/-- C5: updateContact leaves the contact cache unchanged for every
payload and every remote outcome, while createContact appends the created
record to the cache whenever the remote call succeeds (and its result's name
list, if present, is non-empty, so that no `IndexError` interrupts the
bookkeeping). -/
theorem updateContact_cacheFrame (st : GState) (log : Log) (data : Payload)
    (remote : Except String GContact) :
    (updateContact st log data remote).2.1.contacts = st.contacts ∧
    (∀ result nm, resultDisplayName result = .ok nm → remote = .ok result →
       (createContact st log data remote).2.1.contacts = st.contacts ++ [result]) := by
  constructor
  · obtain ⟨rn, nms⟩ := data
    cases rn with
    | none => rfl
    | some rid =>
      cases remote with
      | error reason =>
        cases nms with
        | none => rfl
        | some l => cases l <;> rfl
      | ok result =>
        obtain ⟨rrn, rnms, rms⟩ := result
        cases rnms with
        | none => rfl
        | some l => cases l <;> rfl
  · intro result nm hdn hrem
    subst hrem
    obtain ⟨rrn, rnms, rms⟩ := result
    cases rnms with
    | none => rfl
    | some l =>
      cases l with
      | nil => simp [resultDisplayName] at hdn
      | cons n rest => rfl

/-- Witness for C5: concrete update and create calls. -/
theorem updateContact_cacheFrame_witness :
    (updateContact ⟨[cG1], [], 0⟩ ⟨[], [], []⟩
        { resourceName := some "people/c2", names := some ["Bob"] }
        (.ok cG2)).2.1.contacts = [cG1] ∧
    (createContact ⟨[cG1], [], 0⟩ ⟨[], [], []⟩
        { resourceName := none, names := some ["Bob"] }
        (.ok cG2)).2.1.contacts = [cG1] ++ [cG2] :=
  ⟨(updateContact_cacheFrame ⟨[cG1], [], 0⟩ ⟨[], [], []⟩
      { resourceName := some "people/c2", names := some ["Bob"] } (.ok cG2)).1,
   (updateContact_cacheFrame ⟨[cG1], [], 0⟩ ⟨[], [], []⟩
      { resourceName := none, names := some ["Bob"] } (.ok cG2)).2 cG2 "Bob" rfl rfl⟩

/-- Evaluates the cache search comprehension of line 101: every cached
contact's `resourceName` is read (a missing key raises `KeyError`) and the
matching contacts are collected in order. -/
def cacheMatches : List GContact → String → Except String (List GContact)
  | [], _ => .ok []
  | c :: rest, id =>
    match c.resourceName with
    | none => .error "KeyError: resourceName"
    | some r => (cacheMatches rest id).map (fun tail => if r == id then c :: tail else tail)

/-- Lines 100-103: the cache is searched only when non-empty, and the first
match is returned. -/
def findCached (contacts : List GContact) (id : String) : Except String (Option GContact) :=
  if contacts.isEmpty then .ok none
  else (cacheMatches contacts id).map List.head?

/-- Pure single-contact form of the label filter: whether the filter keeps a
well-formed contact. -/
def keptByFilter (f : LabelFilter) (c : GContact) : Bool :=
  if f.includeIds.isEmpty then
    if f.excludeIds.isEmpty then true else keptByExclude f c
  else keptByInclude f c

/-- Outcome of `getContact`: the returned value or raised message, the
contact cache after the call, and the log after the call. -/
structure GetContactResult where
  result : Except String GContact
  contacts : List GContact
  log : Log

/-- Embeds `Google.getContact` (lines 96-134).  The outcome of the remote GET is
the `remote` argument (`.error reason` models a raised `HttpError`).  A cached
match is returned directly.  Otherwise the result is pushed through the label
filter: an empty filtered list raises `IndexError`, answered by an info-level
log and the "not allowed by label filter" message; an `HttpError`, or any
other exception such as a `KeyError` from the filter or the cache search, is
answered by an error-level log and a "Failed to fetch" message.  A surviving
contact is appended to the cache and returned. -/
def getContact (f : LabelFilter) (contacts : List GContact) (log : Log)
    (id : String) (remote : Except String GContact) : GetContactResult :=
  match findCached contacts id with
  | .error e =>
    let msg := "Failed to fetch Google contact '" ++ id ++ "': " ++ e
    { result := .error msg, contacts := contacts, log := log.addError msg }
  | .ok (some c) => { result := .ok c, contacts := contacts, log := log }
  | .ok none =>
    match remote with
    | .error reason =>
      let msg := "Failed to fetch Google contact '" ++ id ++ "': " ++ reason
      { result := .error msg, contacts := contacts, log := log.addError msg }
    | .ok result =>
      match filterContactsByLabel f [result] with
      | .error e =>
        let msg := "Failed to fetch Google contact '" ++ id ++ "': " ++ e
        { result := .error msg, contacts := contacts, log := log.addError msg }
      | .ok [] =>
        let msg := "Contact processing of '" ++ id ++ "' not allowed by label filter"
        { result := .error msg, contacts := contacts, log := log.addInfo msg }
      | .ok (c :: _) =>
        { result := .ok c, contacts := contacts ++ [c], log := log }

lemma filterContactsByLabel_singleton (f : LabelFilter) (c : GContact)
    (h : wellformedContact c = true) :
    filterContactsByLabel f [c] = .ok (if keptByFilter f c then [c] else []) := by
  have hwf : ∀ x ∈ [c], wellformedContact x = true := by
    intro x hx
    rw [List.mem_singleton.mp hx]
    exact h
  obtain ⟨h1, h2, h3⟩ := filterContactsByLabel_threeCase f [c] hwf
  unfold keptByFilter
  rcases hi : f.includeIds with _ | ⟨x, xs⟩
  · rcases he : f.excludeIds with _ | ⟨y, ys⟩
    · simpa [hi, he] using h3 hi he
    · rw [h2 hi (by rw [he]; simp)]
      simp only [hi, he, List.isEmpty_nil, List.isEmpty_cons, if_true,
        Bool.false_eq_true, if_false, List.filter]
      cases keptByExclude f c <;> rfl
  · rw [h1 (by rw [hi]; simp)]
    simp only [hi, List.isEmpty_cons, Bool.false_eq_true, if_false, List.filter]
    cases keptByInclude f c <;> rfl

/-- First character of a string, when any. -/
def firstChar (s : String) : Option Char :=
  s.data.head?

lemma firstChar_append (s t : String) (c : Char) (h : firstChar s = some c) :
    firstChar (s ++ t) = some c := by
  unfold firstChar at h
  unfold firstChar
  rw [String.data_append]
  cases hd : s.data with
  | nil => rw [hd] at h; simp at h
  | cons a as =>
    rw [hd] at h
    simp only [List.head?_cons, Option.some.injEq] at h
    simp [h]

lemma notAllowed_ne_failed (id1 id2 tail : String) :
    "Contact processing of '" ++ id1 ++ "' not allowed by label filter" ≠
      "Failed to fetch Google contact '" ++ id2 ++ "': " ++ tail := by
  intro h
  have hC : firstChar ("Contact processing of '" ++ id1 ++ "' not allowed by label filter") =
      some 'C' :=
    firstChar_append _ _ _ (firstChar_append _ _ _ rfl)
  have hF : firstChar ("Failed to fetch Google contact '" ++ id2 ++ "': " ++ tail) =
      some 'F' :=
    firstChar_append _ _ _ (firstChar_append _ _ _ (firstChar_append _ _ _ rfl))
  rw [h, hF] at hC
  exact absurd hC (by decide)

/-- C6: for a single-contact fetch of an id with no cached match, when the
remote GET succeeds with a well-formed contact: if the contact does not pass
the label filter, the call fails with the "not allowed by label filter"
message, logged at info level (errors untouched), the cache is unchanged, and
that message differs from every remote-error message; if it passes, the
contact is appended to the cache and returned; a remote error instead fails
with the "Failed to fetch" message logged at error level (infos untouched). -/
theorem getContact_filterDistinct (f : LabelFilter) (contacts : List GContact)
    (log : Log) (id : String) (c : GContact)
    (hcache : findCached contacts id = .ok none)
    (hwf : wellformedContact c = true) :
    (keptByFilter f c = false →
       getContact f contacts log id (.ok c) =
         { result := .error ("Contact processing of '" ++ id ++ "' not allowed by label filter"),
           contacts := contacts,
           log := log.addInfo ("Contact processing of '" ++ id ++ "' not allowed by label filter") } ∧
       ∀ id2 reason,
         "Contact processing of '" ++ id ++ "' not allowed by label filter" ≠
           "Failed to fetch Google contact '" ++ id2 ++ "': " ++ reason) ∧
    (keptByFilter f c = true →
       getContact f contacts log id (.ok c) =
         { result := .ok c, contacts := contacts ++ [c], log := log }) ∧
    (∀ reason, getContact f contacts log id (.error reason) =
       { result := .error ("Failed to fetch Google contact '" ++ id ++ "': " ++ reason),
         contacts := contacts,
         log := log.addError ("Failed to fetch Google contact '" ++ id ++ "': " ++ reason) }) := by
  refine ⟨fun hkept => ⟨?_, fun id2 reason => notAllowed_ne_failed id id2 reason⟩,
    fun hkept => ?_, fun reason => ?_⟩
  · have hfl : filterContactsByLabel f [c] = .ok [] := by
      rw [filterContactsByLabel_singleton f c hwf, hkept]
      rfl
    unfold getContact
    rw [hcache]
    simp only [hfl]
  · have hfl : filterContactsByLabel f [c] = .ok [c] := by
      rw [filterContactsByLabel_singleton f c hwf, hkept]
      rfl
    unfold getContact
    rw [hcache]
    simp only [hfl]
  · unfold getContact
    rw [hcache]

/-- Witness for C6: a contact outside the include list is rejected with the
info-level message, one inside is appended and returned. -/
theorem getContact_filterDistinct_witness :
    getContact ⟨["g1"], []⟩ [] ⟨[], [], []⟩ "people/c2" (.ok cG2) =
      { result := .error ("Contact processing of '" ++ "people/c2" ++ "' not allowed by label filter"),
        contacts := [],
        log := Log.addInfo ⟨[], [], []⟩
          ("Contact processing of '" ++ "people/c2" ++ "' not allowed by label filter") } ∧
    getContact ⟨["g1"], []⟩ [] ⟨[], [], []⟩ "people/c1" (.ok cG1) =
      { result := .ok cG1, contacts := [] ++ [cG1], log := ⟨[], [], []⟩ } :=
  ⟨((getContact_filterDistinct ⟨["g1"], []⟩ [] ⟨[], [], []⟩ "people/c2" cG2
      rfl (by decide)).1 (by decide)).1,
   (getContact_filterDistinct ⟨["g1"], []⟩ [] ⟨[], [], []⟩ "people/c1" cG1
      rfl (by decide)).2.1 (by decide)⟩

/-- Country dict inside a supplied address: the optional `name` and `iso`
entries. -/
structure Country where
  name : Option String
  iso : Option String
  deriving DecidableEq

/-- The `country` slot of a supplied address dict: `missing` when the dict
has no `country` key at all, `value none` when the key holds a falsy value
(Python `None` or an empty dict), `value (some c)` when it holds a truthy
country dict. -/
inductive CountryField where
  | missing
  | value (c : Option Country)
  deriving DecidableEq

/-- A supplied address dict (the Monica-side shape read with `.get`). -/
structure MAddress where
  name : Option String
  street : Option String
  city : Option String
  province : Option String
  postal_code : Option String
  country : CountryField
  deriving DecidableEq

/-- One produced address of the upload form. -/
structure AddressOut where
  type : String
  streetAddress : String
  city : String
  region : String
  postalCode : String
  country : Option String
  countryCode : Option String
  deriving DecidableEq

/-- Lines 331-342: shapes one supplied address.  All fields but `country` are
read with `.get` and a default; `address["country"]` is a direct key access,
so a missing `country` key raises `KeyError`, while a falsy value yields
null country and countryCode. -/
def buildAddress (address : MAddress) : Except String AddressOut :=
  match address.country with
  | .missing => .error "KeyError: country"
  | .value cv =>
    .ok { type := address.name.getD "",
          streetAddress := address.street.getD "",
          city := address.city.getD "",
          region := address.province.getD "",
          postalCode := address.postal_code.getD "",
          country := cv.bind Country.name,
          countryCode := cv.bind Country.iso }

/-- Concrete address whose dict has no `country` key. -/
def addrNoCountry : MAddress :=
  { name := some "home", street := some "1 Main St", city := some "Town",
    province := none, postal_code := none, country := .missing }

/-- Counterexample for C7 as stated: for the concrete supplied address with
no `country` entry the builder does not produce an address at all (so in
particular none with null country fields) — it raises a `KeyError`. -/
theorem buildAddress_missingCountry_counterexample :
    (¬ ∃ out, buildAddress addrNoCountry = .ok out ∧
        out.country = none ∧ out.countryCode = none) ∧
    buildAddress addrNoCountry = .error "KeyError: country" := by
  constructor
  · rintro ⟨out, hout, -, -⟩
    exact Except.noConfusion hout
  · rfl

/-- C7 amended: for every supplied address whose `country` entry is
present: a falsy entry (None/empty) produces null country and countryCode,
and a truthy country dict produces its `name` and `iso` entries; a supplied
address with no `country` entry instead makes the builder fail with a
`KeyError`. -/
theorem buildAddress_country (a : MAddress) :
    (a.country = .value none →
       ∃ out, buildAddress a = .ok out ∧ out.country = none ∧ out.countryCode = none) ∧
    (∀ c, a.country = .value (some c) →
       ∃ out, buildAddress a = .ok out ∧ out.country = c.name ∧ out.countryCode = c.iso) ∧
    (a.country = .missing → ∃ e, buildAddress a = .error e) := by
  refine ⟨fun h => ?_, fun c h => ?_, fun h => ?_⟩
  · refine ⟨{ type := a.name.getD "", streetAddress := a.street.getD "",
              city := a.city.getD "", region := a.province.getD "",
              postalCode := a.postal_code.getD "",
              country := none, countryCode := none }, ?_, rfl, rfl⟩
    unfold buildAddress
    rw [h]
    rfl
  · refine ⟨{ type := a.name.getD "", streetAddress := a.street.getD "",
              city := a.city.getD "", region := a.province.getD "",
              postalCode := a.postal_code.getD "",
              country := c.name, countryCode := c.iso }, ?_, rfl, rfl⟩
    unfold buildAddress
    rw [h]
    rfl
  · refine ⟨"KeyError: country", ?_⟩
    unfold buildAddress
    rw [h]

/-- Witness for the amended C7: the three country shapes on concrete
addresses. -/
theorem buildAddress_country_witness :
    (∃ out, buildAddress { addrNoCountry with country := .value none } = .ok out ∧
       out.country = none ∧ out.countryCode = none) ∧
    (∃ out, buildAddress
        { addrNoCountry with country := .value (some ⟨some "France", some "fr"⟩) } = .ok out ∧
       out.country = some "France" ∧ out.countryCode = some "fr") ∧
    (∃ e, buildAddress addrNoCountry = .error e) :=
  ⟨(buildAddress_country { addrNoCountry with country := .value none }).1 rfl,
   (buildAddress_country
      { addrNoCountry with country := .value (some ⟨some "France", some "fr"⟩) }).2.1
      ⟨some "France", some "fr"⟩ rfl,
   (buildAddress_country addrNoCountry).2.2 rfl⟩

/-- Birthdate dict: the optional `year`, `month`, `day` entries of a truthy
birthdate; an empty/absent dict is modelled as `none` at the use site. -/
structure BDate where
  year : Option Int
  month : Option Int
  day : Option Int
  deriving DecidableEq

/-- Career dict: the optional `company` and `job` entries. -/
structure Career where
  company : Option String
  job : Option String
  deriving DecidableEq

/-- The produced `names` group entry. -/
structure NameOut where
  familyName : String
  givenName : String
  middleName : String
  deriving DecidableEq

/-- The produced `birthdays` date. -/
structure DateOut where
  year : Int
  month : Int
  day : Int
  deriving DecidableEq

/-- The produced `organizations` entry. -/
structure OrgOut where
  name : String
  title : String
  deriving DecidableEq

/-- A produced phone or email entry: the value plus the fixed "other" tag. -/
structure TaggedValue where
  value : String
  type : String
  deriving DecidableEq

/-- The form built by `GoogleContactUploadForm.__init__`: `names` is always
present; every other group is `none` exactly when its key is absent from the
produced dict.  Memberships are represented by their
`contactGroupResourceName` strings. -/
structure GoogleContactUploadForm where
  names : List NameOut
  birthdays : Option (List DateOut)
  organizations : Option (List OrgOut)
  addresses : Option (List AddressOut)
  phoneNumbers : Option (List TaggedValue)
  emailAddresses : Option (List TaggedValue)
  memberships : Option (List String)
  deriving DecidableEq

/-- Shapes the `addresses` group (lines 330-342): absent when the input list
is empty, otherwise each supplied address shaped in order with the first
raised `KeyError` aborting. -/
def shapeAddresses (addresses : List MAddress) : Except String (Option (List AddressOut)) :=
  if addresses.isEmpty then .ok none
  else (addresses.mapM buildAddress).map some

/-- Embeds `GoogleContactUploadForm.__init__` (lines 296-371).  A falsy optional
dict input (birthdate, career) is `none`; list inputs are falsy when empty.
Shaping the addresses may raise (missing `country` key), which aborts the
whole constructor. -/
def uploadFormInit (firstName lastName middleName : String) (birthdate : Option BDate)
    (phoneNumbers : List String) (career : Option Career)
    (emailAdresses : List String) (labelIds : List String)
    (addresses : List MAddress) : Except String GoogleContactUploadForm :=
  match shapeAddresses addresses with
  | .error e => .error e
  | .ok addressesOut => .ok
    { names := [{ familyName := lastName, givenName := firstName, middleName := middleName }],
      birthdays := birthdate.map (fun b =>
        [{ year := b.year.getD 0, month := b.month.getD 0, day := b.day.getD 0 }]),
      organizations := career.map (fun cr =>
        [{ name := cr.company.getD "", title := cr.job.getD "" }]),
      addresses := addressesOut,
      phoneNumbers := if phoneNumbers.isEmpty then none
        else some (phoneNumbers.map (fun number => { value := number, type := "other" })),
      emailAddresses := if emailAdresses.isEmpty then none
        else some (emailAdresses.map (fun email => { value := email, type := "other" })),
      memberships := if labelIds.isEmpty then none else some labelIds }

/-- Top-level keys of the produced dict, in insertion order. -/
def topLevelKeys (fm : GoogleContactUploadForm) : List String :=
  ["names"] ++ (if fm.birthdays.isSome then ["birthdays"] else [])
    ++ (if fm.organizations.isSome then ["organizations"] else [])
    ++ (if fm.addresses.isSome then ["addresses"] else [])
    ++ (if fm.phoneNumbers.isSome then ["phoneNumbers"] else [])
    ++ (if fm.emailAddresses.isSome then ["emailAddresses"] else [])
    ++ (if fm.memberships.isSome then ["memberships"] else [])

/-- C8: with every optional input absent or empty the builder produces a
form whose only top-level key is `names`, holding the three (possibly
empty-string) name parts; and on every successful build, each optional group
is present in the output exactly when its input is non-empty. -/
theorem uploadFormInit_keys (firstName lastName middleName : String)
    (bd : Option BDate) (ph : List String) (cr : Option Career)
    (em ls : List String) (ad : List MAddress) :
    (uploadFormInit firstName lastName middleName none [] none [] [] [] =
       .ok { names := [{ familyName := lastName, givenName := firstName,
                         middleName := middleName }],
             birthdays := none, organizations := none, addresses := none,
             phoneNumbers := none, emailAddresses := none, memberships := none }) ∧
    topLevelKeys { names := [{ familyName := lastName, givenName := firstName,
                               middleName := middleName }],
                   birthdays := none, organizations := none, addresses := none,
                   phoneNumbers := none, emailAddresses := none,
                   memberships := none } = ["names"] ∧
    (∀ fm, uploadFormInit firstName lastName middleName bd ph cr em ls ad = .ok fm →
       fm.birthdays.isSome = bd.isSome ∧
       fm.organizations.isSome = cr.isSome ∧
       fm.addresses.isSome = !ad.isEmpty ∧
       fm.phoneNumbers.isSome = !ph.isEmpty ∧
       fm.emailAddresses.isSome = !em.isEmpty ∧
       fm.memberships.isSome = !ls.isEmpty) := by
  refine ⟨rfl, rfl, fun fm hfm => ?_⟩
  unfold uploadFormInit at hfm
  cases hsa : shapeAddresses ad with
  | error e =>
    rw [hsa] at hfm
    exact Except.noConfusion hfm
  | ok ao =>
    rw [hsa] at hfm
    simp only [Except.ok.injEq] at hfm
    subst hfm
    refine ⟨?_, ?_, ?_, ?_, ?_, ?_⟩
    · cases bd <;> rfl
    · cases cr <;> rfl
    · show ao.isSome = !ad.isEmpty
      unfold shapeAddresses at hsa
      cases had : ad.isEmpty with
      | true =>
        rw [had] at hsa
        simp only [if_true] at hsa
        cases hsa
        rfl
      | false =>
        rw [had] at hsa
        simp only [Bool.false_eq_true, if_false] at hsa
        cases hmm : ad.mapM buildAddress with
        | error e2 => rw [hmm] at hsa; exact Except.noConfusion hsa
        | ok outs =>
          rw [hmm] at hsa
          simp only [Except.map, Except.ok.injEq] at hsa
          rw [← hsa]
          rfl
    · cases hp : ph.isEmpty <;> simp [hp]
    · cases hp : em.isEmpty <;> simp [hp]
    · cases hp : ls.isEmpty <;> simp [hp]

/-- Witness for C8: a build with a birthdate and one label, no other optional
inputs. -/
theorem uploadFormInit_keys_witness :
    uploadFormInit "Jane" "Doe" "" none [] none [] [] [] =
      .ok { names := [{ familyName := "Doe", givenName := "Jane", middleName := "" }],
            birthdays := none, organizations := none, addresses := none,
            phoneNumbers := none, emailAddresses := none, memberships := none } ∧
    ∀ fm, uploadFormInit "Jane" "Doe" "" (some ⟨some 1990, some 5, some 1⟩) [] none []
        ["contactGroups/g1"] [] = .ok fm →
      fm.birthdays.isSome = true ∧ fm.memberships.isSome = true :=
  ⟨(uploadFormInit_keys "Jane" "Doe" "" none [] none [] [] []).1,
   fun fm hfm =>
     ⟨((uploadFormInit_keys "Jane" "Doe" "" (some ⟨some 1990, some 5, some 1⟩) [] none []
         ["contactGroups/g1"] []).2.2 fm hfm).1,
      ((uploadFormInit_keys "Jane" "Doe" "" (some ⟨some 1990, some 5, some 1⟩) [] none []
         ["contactGroups/g1"] []).2.2 fm hfm).2.2.2.2.2⟩⟩

/-- Python's `str.split` for a single-character separator: splits at every
occurrence, yielding one (possibly empty) segment more than the number of
separators. -/
def splitChars (sep : Char) : List Char → List (List Char)
  | [] => [[]]
  | c :: rest =>
    let r := splitChars sep rest
    if c = sep then [] :: r else (c :: r.headD []) :: r.tail

/-- Embeds `Google.getLabelName` (lines 68-71): `labelString.split("/")[1]` is
evaluated first — a string without "/" raises `IndexError` before the mapping
is consulted — and then the reverse mapping is read with the split segment as
the default. -/
def getLabelName (reverseLabelMapping : List (String × String)) (labelString : String) :
    Except String String :=
  match (splitChars '/' labelString.toList)[1]? with
  | none => .error "IndexError"
  | some labelId => .ok ((reverseLabelMapping.lookup labelString).getD (String.mk labelId))

lemma splitChars_ne_nil (sep : Char) (l : List Char) : splitChars sep l ≠ [] := by
  cases l with
  | nil => simp [splitChars]
  | cons c rest =>
    unfold splitChars
    by_cases hc : c = sep <;> simp [hc]

lemma splitChars_length (sep : Char) (l : List Char) :
    (splitChars sep l).length = l.count sep + 1 := by
  induction l with
  | nil => rfl
  | cons c rest ih =>
    unfold splitChars
    by_cases hc : c = sep
    · subst hc
      simp [List.count_cons_self, ih]
    · have hr : splitChars sep rest ≠ [] := splitChars_ne_nil sep rest
      have hlen : 1 ≤ (splitChars sep rest).length := by
        cases hx : splitChars sep rest with
        | nil => exact absurd hx hr
        | cons a b => simp
      simp only [hc, if_false, List.length_cons, List.length_tail,
        List.count_cons, beq_iff_eq]
      omega

/-- Counterexample for C9 as stated: the id "x" is present in the reverse
mapping (mapped to "Name"), yet the call raises an `IndexError` instead of
returning the mapped name, because the split-index access runs first and "x"
has no "/" separator. -/
theorem getLabelName_counterexample :
    getLabelName [("x", "Name")] "x" = .error "IndexError" ∧
    getLabelName [("x", "Name")] "x" ≠ .ok "Name" := by
  refine ⟨rfl, fun h => ?_⟩
  rw [show getLabelName [("x", "Name")] "x" = .error "IndexError" from rfl] at h
  exact Except.noConfusion h

/-- C9 amended: for every label id string that contains the "/"
separator, the call returns the name mapped to that id when present in the
reverse mapping and otherwise the id's local part (the second split segment);
for a string without "/" the call raises an `IndexError` — even when the id
is present in the mapping. -/
theorem getLabelName_resolve (m : List (String × String)) (s : String) :
    ('/' ∈ s.toList →
       (∀ name, m.lookup s = some name → getLabelName m s = .ok name) ∧
       (m.lookup s = none →
          ∃ seg, (splitChars '/' s.toList)[1]? = some seg ∧
            getLabelName m s = .ok (String.mk seg))) ∧
    ('/' ∉ s.toList → getLabelName m s = .error "IndexError") := by
  constructor
  · intro hmem
    have hlen : 2 ≤ (splitChars '/' s.toList).length := by
      rw [splitChars_length]
      have := List.count_pos_iff.mpr hmem
      omega
    have hget : ∃ seg, (splitChars '/' s.toList)[1]? = some seg := by
      cases hs : (splitChars '/' s.toList)[1]? with
      | none =>
        have := List.getElem?_eq_none_iff.mp hs
        omega
      | some seg => exact ⟨seg, rfl⟩
    obtain ⟨seg, hseg⟩ := hget
    constructor
    · intro name hname
      unfold getLabelName
      rw [hseg, hname]
      rfl
    · intro hnone
      refine ⟨seg, hseg, ?_⟩
      unfold getLabelName
      rw [hseg, hnone]
      rfl
  · intro hmem
    have hlen : (splitChars '/' s.toList).length = 1 := by
      rw [splitChars_length]
      have : s.toList.count '/' = 0 := List.count_eq_zero.mpr hmem
      omega
    have hnone : (splitChars '/' s.toList)[1]? = none :=
      List.getElem?_eq_none_iff.mpr (by omega)
    unfold getLabelName
    rw [hnone]

/-- Witness for the amended C9: a mapped id resolves to its name, an unmapped
id falls back to its local part, and a separator-less string raises. -/
theorem getLabelName_resolve_witness :
    getLabelName [("contactGroups/abc", "Friends")] "contactGroups/abc" = .ok "Friends" ∧
    getLabelName [] "contactGroups/abc" = .ok "abc" ∧
    getLabelName [] "noSlash" = .error "IndexError" := by
  refine ⟨((getLabelName_resolve [("contactGroups/abc", "Friends")] "contactGroups/abc").1
      (by decide)).1 "Friends" rfl, ?_, (getLabelName_resolve [] "noSlash").2 (by decide)⟩
  obtain ⟨seg, hseg, hres⟩ :=
    ((getLabelName_resolve [] "contactGroups/abc").1 (by decide)).2 rfl
  rw [hres, show seg = "abc".toList from by
    have : (splitChars '/' "contactGroups/abc".toList)[1]? = some "abc".toList := rfl
    rw [this] at hseg
    exact (Option.some.injEq _ _ ▸ hseg).symm]
  rfl

end GMSync
